import Mathlib

/-!
Verification of the payment checkout flow of a React Native storefront app.

The embedding models, from the sources:
* the checkout screen of `src/unnamed/part_009` (`CheckoutScreen`):
  `isPaymentSuccessUrl`, `extractReferenceFromUrl`,
  `handleNavigationStateChange`, `handleWebViewError`, the invalid-link
  guard and the render branches;
* the divergent legacy checkout screen of `src/src/screens/CheckoutScreen.tsx`
  (`handleWebViewNavigation`).

JavaScript strings are modelled as Lean `String`; `undefined`/`null` string
values as `Option String` with JS truthiness made explicit (`jsTruthy`,
`jsOr`).  The WHATWG `new URL` constructor is modelled by a simplified
validity test (`urlParses`: the string must begin with `scheme:` where the
scheme is `[A-Za-z][A-Za-z0-9+.-]*`) together with query-string parsing
(`searchParams`); percent-decoding and host validation are not modelled —
no claim depends on them.  The backend call `verifyPayment` is imported by
the screen from `../api/api`, whose versions in the sources do not define
it; it is therefore kept abstract as a `String → VerifyOutcome` parameter,
with a transport-error instance modelled from the spec where a claim needs
one.
-/

namespace Checkout

/-! ## JavaScript string primitives -/

/-- Character-list prefix test: `charsHavePre pat s` is true iff `pat` is a
prefix of `s`. -/
def charsHavePre : List Char → List Char → Bool
  | [], _ => true
  | _ :: _, [] => false
  | p :: pt, c :: ct => p == c && charsHavePre pt ct

/-- Character-list substring test: `charsHaveSub s pat` is true iff `pat`
occurs contiguously in `s`. -/
def charsHaveSub : List Char → List Char → Bool
  | [], pat => pat.isEmpty
  | c :: t, pat => charsHavePre pat (c :: t) || charsHaveSub t pat

/-- Model of JavaScript `s.includes(pat)`. -/
def strIncl (s pat : String) : Bool :=
  charsHaveSub s.data pat.data

/-- Model of JavaScript `s.startsWith(p)`. -/
def strStarts (s p : String) : Bool :=
  charsHavePre p.data s.data

/-- Splitting worker over character lists; `fuel` bounds the recursion and
is always supplied as the length of the input, which suffices because the
separator is non-empty in every use. -/
def splitFuel (sep : List Char) : Nat → List Char → List Char → List (List Char)
  | _, [], acc => [acc.reverse]
  | 0, s, acc => [acc.reverse ++ s]
  | fuel + 1, c :: rest, acc =>
    if charsHavePre sep (c :: rest) then
      acc.reverse :: splitFuel sep fuel ((c :: rest).drop sep.length) []
    else
      splitFuel sep fuel rest (c :: acc)

/-- Model of JavaScript `s.split(sep)` for a non-empty literal separator
(splits on every non-overlapping occurrence, left to right). -/
def jsSplit (s sep : String) : List String :=
  if sep == "" then [s]
  else (splitFuel sep.data s.data.length s.data []).map String.mk

/-- JavaScript truthiness of a possibly-absent string: `undefined`/`null`
and the empty string are falsy. -/
def jsTruthy : Option String → Bool
  | none => false
  | some s => !(s == "")

/-- Model of JavaScript `x || y` on possibly-absent strings. -/
def jsOr (x y : Option String) : Option String :=
  if jsTruthy x then x else y

/-- Model of JavaScript `x || "lit"` where the right operand is a string
literal. -/
def jsOrStr (x : Option String) (y : String) : String :=
  match x with
  | none => y
  | some s => if s == "" then y else s

/-! ## Simplified WHATWG URL model -/

/-- ASCII letter test for URL schemes. -/
def isAsciiLetter (c : Char) : Bool :=
  ('a' ≤ c && c ≤ 'z') || ('A' ≤ c && c ≤ 'Z')

/-- Characters allowed in a URL scheme after the first. -/
def schemeCharOk (c : Char) : Bool :=
  isAsciiLetter c || c.isDigit || c == '+' || c == '-' || c == '.'

/-- Scans the tail of a scheme: accepts when a `:` is reached through
scheme characters. -/
def schemeTail : List Char → Bool
  | [] => false
  | c :: rest => if c == ':' then true else schemeCharOk c && schemeTail rest

/-- Model of the `new URL(url)` validity test: the constructor succeeds iff
the string starts with `scheme:` for a scheme `[A-Za-z][A-Za-z0-9+.-]*`.
Host-shape validation and percent-decoding of the real constructor are not
modelled; no claim depends on them. -/
def urlParses (url : String) : Bool :=
  match url.data with
  | [] => false
  | c :: rest => isAsciiLetter c && schemeTail rest

/-- Query portion of a URL: the text after the first `?` of the part
before the first `#`. -/
def queryPart (url : String) : String :=
  match jsSplit ((jsSplit url "#").headD "") "?" with
  | [] => ""
  | [_] => ""
  | _ :: rest => String.intercalate "?" rest

/-- One `name=value` piece of a query string; the value is everything
after the first `=` (absent `=` gives the empty value, as in
`URLSearchParams`). -/
def paramOfPiece (p : String) : String × String :=
  match jsSplit p "=" with
  | [] => (p, "")
  | [n] => (n, "")
  | n :: rest => (n, String.intercalate "=" rest)

/-- Model of `new URL(url).searchParams`: the `&`-separated non-empty
pieces of the query string, as name/value pairs. -/
def searchParams (url : String) : List (String × String) :=
  ((jsSplit (queryPart url) "&").filter (fun p => !(p == ""))).map paramOfPiece

/-- Model of `searchParams.get(name)`: value of the first parameter with
the given name, `none` for JavaScript `null`. -/
def spGet (ps : List (String × String)) (name : String) : Option String :=
  (ps.find? (fun q => q.fst == name)).map Prod.snd

/-! ## Redirect classification (`src/unnamed/part_009`, lines 146–155) -/

/-- The fixed success-pattern list of `isPaymentSuccessUrl`. -/
def successPatterns : List String :=
  [ "kibraconnect://payment-callback"
  , "success=true"
  , "/api/marketplace/payments/callback/"
  , "paystack.co/success"
  , "payment/success" ]

/-- Embeds `isPaymentSuccessUrl` (lines 146–155):
`successPatterns.some(pattern => url.includes(pattern))`. -/
def isPaymentSuccessUrl (url : String) : Bool :=
  successPatterns.any (fun pattern => strIncl url pattern)

/-! ## Reference extraction (`src/unnamed/part_009`, lines 157–166) -/

/-- The raw-string fallback of the `catch` branch of
`extractReferenceFromUrl`:
`url.split('reference=')[1]?.split('&')[0]`. -/
def rawSplitToken (url : String) : Option String :=
  ((jsSplit url "reference=")[1]?).map (fun s => (jsSplit s "&").headD "")

/-- Embeds `extractReferenceFromUrl` (lines 157–166).  `reference` is the
session reference captured from the route params (possibly absent).  The
`try` branch runs when `new URL(url)` succeeds (modelled by `urlParses`)
and returns
`searchParams.get('reference') || searchParams.get('transaction_id') || reference`;
the `catch` branch returns
`url.split('reference=')[1]?.split('&')[0] || reference`. -/
def extractReferenceFromUrl (reference : Option String) (url : String) :
    Option String :=
  if urlParses url then
    jsOr (jsOr (spGet (searchParams url) "reference")
               (spGet (searchParams url) "transaction_id"))
         reference
  else
    jsOr (rawSplitToken url) reference

/-- Line 129 of the navigation handler:
`const referenceId = extractReferenceFromUrl(url) || reference`. -/
def resolveReferenceId (reference : Option String) (url : String) :
    Option String :=
  jsOr (extractReferenceFromUrl reference url) reference

/-! ## Verifier interface -/

/-- Shape of `response.data` of the backend verification call: the fields
the handler reads (`status`, `order_id`, `error`), each possibly absent. -/
structure RespData where
  status : Option String
  order_id : Option Nat
  error : Option String
deriving Repr, DecidableEq

/-- Shape of the `verifyPayment` resolution value; `data` may be absent
(the handler reads it with `response.data?.…`). -/
structure VerifyResponse where
  data : Option RespData
deriving Repr, DecidableEq

/-- Outcome of one `verifyPayment(referenceId)` round trip: the promise
resolves with a response, or rejects with an error whose `message`
property may be absent. -/
inductive VerifyOutcome where
  | ok (response : VerifyResponse)
  | err (message : Option String)
deriving Repr, DecidableEq

/-! ## Navigation-state handler (`src/unnamed/part_009`, lines 108–144) -/

/-- User-visible outcome of one navigation event. -/
inductive NavOutcome where
  | noAction
  | successAlert (orderId : Option Nat)
  | errorAlert (message : String)
deriving Repr, DecidableEq

/-- Observable result of one run of the navigation handler: the alert
outcome, the number of `verifyPayment` invocations performed, the
reference passed to the verifier (when one was invoked), and whether
`setWebViewVisible(false)` was called. -/
structure NavResult where
  outcome : NavOutcome
  verifyCalls : Nat
  verifiedRef : Option String
  hideWebView : Bool
deriving Repr, DecidableEq

/-- Embeds `handleNavigationStateChange` (lines 108–144) for one delivered
navigation event with target `url`.  `reference` is the session reference
from the route params and `verifier` the abstract `verifyPayment`.  The
progress-bar animation (lines 111–122) is pure presentation state and is
not modelled.  Note the handler consults no guard state: its only test is
`isPaymentSuccessUrl(url)`. -/
def handleNavigationStateChange (reference : Option String)
    (verifier : String → VerifyOutcome) (url : String) : NavResult :=
  if isPaymentSuccessUrl url then
    if jsTruthy (resolveReferenceId reference url) then
      match verifier ((resolveReferenceId reference url).getD "") with
      | .ok resp =>
        if resp.data.bind RespData.status = some "success" then
          { outcome := .successAlert (resp.data.bind RespData.order_id)
          , verifyCalls := 1
          , verifiedRef := resolveReferenceId reference url
          , hideWebView := true }
        else
          { outcome := .errorAlert
              (jsOrStr (resp.data.bind RespData.error)
                "Payment failed. Please try again.")
          , verifyCalls := 1
          , verifiedRef := resolveReferenceId reference url
          , hideWebView := true }
      | .err m =>
          { outcome := .errorAlert (jsOrStr m "Payment verification failed")
          , verifyCalls := 1
          , verifiedRef := resolveReferenceId reference url
          , hideWebView := true }
    else
      { outcome := .errorAlert "No reference found in callback URL"
      , verifyCalls := 0
      , verifiedRef := none
      , hideWebView := true }
  else
    { outcome := .noAction, verifyCalls := 0, verifiedRef := none
    , hideWebView := false }

/-- Total number of `verifyPayment` invocations over a sequence of
delivered navigation events.  The only cross-event state the code mutates
on a match is `webViewVisible`, which `handleNavigationStateChange` never
reads, so per-event results are independent. -/
def processEvents (reference : Option String)
    (verifier : String → VerifyOutcome) (events : List String) : Nat :=
  (events.map
    (fun u => (handleNavigationStateChange reference verifier u).verifyCalls)).sum

/-- Modelled from the spec: `verifyPayment` is imported by the checkout
screen from `../api/api`, and neither api-client version in the sources
defines it.  Per §4.2, a transport error (network failure, timeout,
non-2xx without a structured body) must surface a generic
verification-failed error; the api-client house style (`registerUser`,
`initiatePayment`, …) rejects with `\x7b detail: … \x7d` objects carrying
no `message` property, so the transport-error rejection is modelled as an
error value with absent message text. -/
def transportErrorVerifier : String → VerifyOutcome :=
  fun _ => .err none

/-! ## WebView load-error handler (`src/unnamed/part_009`, lines 168–184) -/

/-- Classification produced by the load-error handler: either the event is
delegated to the navigation handler (verification proceeds) or it is
surfaced as fatal with the given alert message. -/
inductive ErrorHandlerResult where
  | delegated (r : NavResult)
  | fatal (message : String)
deriving Repr, DecidableEq

/-- Embeds `handleWebViewError` (lines 168–184).  `url` and `description`
are `nativeEvent.url` and `nativeEvent.description` (the latter possibly
absent).  The state effects `setWebViewError(description)` and
`setProgress(0)` are presentation state and not part of the
classification.  Note the re-check tests only the single substring
`/api/marketplace/payments/callback/`, not the full success-pattern
list. -/
def handleWebViewError (reference : Option String)
    (verifier : String → VerifyOutcome) (url : String)
    (description : Option String) : ErrorHandlerResult :=
  if strIncl url "/api/marketplace/payments/callback/" then
    if jsTruthy (extractReferenceFromUrl reference url) then
      .delegated (handleNavigationStateChange reference verifier url)
    else
      .fatal (jsOrStr description "Failed to load payment page")
  else
    .fatal (jsOrStr description "Failed to load payment page")

/-! ## Render branches of the screen (`src/unnamed/part_009`, lines 221–348) -/

/-- The invalid-link guard of line 229:
`!authorizationUrl || !authorizationUrl.startsWith('https')`. -/
def isInvalidPaymentLink (authorizationUrl : Option String) : Bool :=
  match authorizationUrl with
  | none => true
  | some u => (u == "") || !(strStarts u "https")

/-- The surface the screen renders. -/
inductive RenderSurface where
  | fontsLoading
  | invalidLink
  | webView (uri : String)
  | errorView (message : String)
  | loadingOverlay
deriving Repr, DecidableEq

/-- Embeds the render decision of the screen body (lines 221–348): the
fonts gate (line 221), then the invalid-link guard (line 229), then the
checkout chrome whose payment area is the `WebView` when
`webViewVisible`, else the error view (showing
`webViewError || 'We encountered an issue processing your payment'`) when
`webViewError` is truthy, else the loading overlay. -/
def render (fontsLoaded : Bool) (authorizationUrl : Option String)
    (webViewVisible : Bool) (webViewError : Option String) : RenderSurface :=
  if !fontsLoaded then .fontsLoading
  else if isInvalidPaymentLink authorizationUrl then .invalidLink
  else if webViewVisible then .webView (authorizationUrl.getD "")
  else if jsTruthy webViewError then
    .errorView (jsOrStr webViewError
      "We encountered an issue processing your payment")
  else .loadingOverlay

/-- Navigation targets offered by `showSuccessAlert` (lines 89–106). -/
inductive NavTarget where
  | home
  | orderDetail (orderId : Option Nat)
deriving Repr, DecidableEq

/-- Embeds the two actions of `showSuccessAlert(orderId)`: "Continue
Shopping" replaces to `Home`, "View Order" replaces to `OrderDetail`
keyed by exactly the `orderId` it was called with. -/
def showSuccessAlertActions (orderId : Option Nat) : List NavTarget :=
  [.home, .orderDetail orderId]

/-! ## Legacy checkout screen (`src/src/screens/CheckoutScreen.tsx`,
lines 118–127) -/

/-- Action of the legacy `handleWebViewNavigation`. -/
inductive LegacyNavAction where
  | noAction
  | navigateOrderConfirmation (reference : String)
  | thrown
deriving Repr, DecidableEq

/-- Result of the legacy handler, with the number of payment-verifier
invocations it performs.  The function body contains no call to any
payment verifier (the file imports none), so `verifyCalls` is identically
`0`; it is recorded to compare with the claims. -/
structure LegacyNavResult where
  action : LegacyNavAction
  verifyCalls : Nat
deriving Repr, DecidableEq

/-- Embeds `handleWebViewNavigation` of the legacy checkout screen
(`src/src/screens/CheckoutScreen.tsx`, lines 118–127): on a URL containing
`/api/orders/payment/callback/` it reads
`new URL(url).searchParams.get('reference')` (no `try`/`catch`: a parse
failure propagates, modelled as `.thrown`) and, when that is truthy,
navigates directly to `OrderConfirmation` with the reference — with no
verification round trip. -/
def handleWebViewNavigation (url : String) : LegacyNavResult :=
  if strIncl url "/api/orders/payment/callback/" then
    if urlParses url then
      if jsTruthy (spGet (searchParams url) "reference") then
        { action := .navigateOrderConfirmation
            ((spGet (searchParams url) "reference").getD "")
        , verifyCalls := 0 }
      else
        { action := .noAction, verifyCalls := 0 }
    else
      { action := .thrown, verifyCalls := 0 }
  else
    { action := .noAction, verifyCalls := 0 }

/-! ## Sample inputs shared by concrete checks -/

/-- A verifier that resolves with `\x7b status: "success", order_id: 7 \x7d`. -/
def sampleSuccessVerifier : String → VerifyOutcome :=
  fun _ => .ok ⟨some ⟨some "success", some 7, none⟩⟩

/-- A redirect URL matching the `payment/success` pattern and carrying a
`reference` query parameter. -/
def sampleSuccessUrl : String :=
  "https://shop.example/payment/success?reference=r1"

/-! ## Helper lemmas -/

theorem jsTruthy_some_of_ne {a : String} (h : a ≠ "") :
    jsTruthy (some a) = true := by
  simp [jsTruthy, h]

theorem jsOr_of_truthy {x y : Option String} (h : jsTruthy x = true) :
    jsOr x y = x := by
  simp [jsOr, h]

theorem jsOr_of_falsy {x y : Option String} (h : jsTruthy x = false) :
    jsOr x y = y := by
  simp [jsOr, h]

theorem jsTruthy_jsOr_right {x y : Option String} (h : jsTruthy y = true) :
    jsTruthy (jsOr x y) = true := by
  by_cases hx : jsTruthy x = true
  · rw [jsOr_of_truthy hx, hx]
  · rw [jsOr_of_falsy (by simpa using hx), h]

theorem extract_of_parses {reference : Option String} {url : String}
    (h : urlParses url = true) :
    extractReferenceFromUrl reference url =
      jsOr (jsOr (spGet (searchParams url) "reference")
                 (spGet (searchParams url) "transaction_id"))
           reference := by
  simp [extractReferenceFromUrl, h]

theorem extract_of_not_parses {reference : Option String} {url : String}
    (h : urlParses url = false) :
    extractReferenceFromUrl reference url =
      jsOr (rawSplitToken url) reference := by
  simp [extractReferenceFromUrl, h]

theorem hnsc_no_match {reference : Option String}
    {verifier : String → VerifyOutcome} {url : String}
    (h : isPaymentSuccessUrl url = false) :
    handleNavigationStateChange reference verifier url =
      { outcome := .noAction, verifyCalls := 0, verifiedRef := none
      , hideWebView := false } := by
  simp [handleNavigationStateChange, h]

theorem hnsc_no_ref {reference : Option String}
    {verifier : String → VerifyOutcome} {url : String}
    (h1 : isPaymentSuccessUrl url = true)
    (h2 : jsTruthy (resolveReferenceId reference url) = false) :
    handleNavigationStateChange reference verifier url =
      { outcome := .errorAlert "No reference found in callback URL"
      , verifyCalls := 0, verifiedRef := none, hideWebView := true } := by
  simp [handleNavigationStateChange, h1, h2]

theorem hnsc_ok_success {reference : Option String}
    {verifier : String → VerifyOutcome} {url : String} {resp : VerifyResponse}
    (h1 : isPaymentSuccessUrl url = true)
    (h2 : jsTruthy (resolveReferenceId reference url) = true)
    (hv : verifier ((resolveReferenceId reference url).getD "") = .ok resp)
    (hs : resp.data.bind RespData.status = some "success") :
    handleNavigationStateChange reference verifier url =
      { outcome := .successAlert (resp.data.bind RespData.order_id)
      , verifyCalls := 1
      , verifiedRef := resolveReferenceId reference url
      , hideWebView := true } := by
  simp [handleNavigationStateChange, h1, h2, hv, hs]

theorem hnsc_ok_fail {reference : Option String}
    {verifier : String → VerifyOutcome} {url : String} {resp : VerifyResponse}
    (h1 : isPaymentSuccessUrl url = true)
    (h2 : jsTruthy (resolveReferenceId reference url) = true)
    (hv : verifier ((resolveReferenceId reference url).getD "") = .ok resp)
    (hs : ¬ resp.data.bind RespData.status = some "success") :
    handleNavigationStateChange reference verifier url =
      { outcome := .errorAlert
          (jsOrStr (resp.data.bind RespData.error)
            "Payment failed. Please try again.")
      , verifyCalls := 1
      , verifiedRef := resolveReferenceId reference url
      , hideWebView := true } := by
  simp [handleNavigationStateChange, h1, h2, hv, hs]

theorem hnsc_err {reference : Option String}
    {verifier : String → VerifyOutcome} {url : String} {m : Option String}
    (h1 : isPaymentSuccessUrl url = true)
    (h2 : jsTruthy (resolveReferenceId reference url) = true)
    (hv : verifier ((resolveReferenceId reference url).getD "") = .err m) :
    handleNavigationStateChange reference verifier url =
      { outcome := .errorAlert (jsOrStr m "Payment verification failed")
      , verifyCalls := 1
      , verifiedRef := resolveReferenceId reference url
      , hideWebView := true } := by
  simp [handleNavigationStateChange, h1, h2, hv]

theorem hnsc_verifyCalls_one {reference : Option String}
    {verifier : String → VerifyOutcome} {url : String}
    (h1 : isPaymentSuccessUrl url = true)
    (h2 : jsTruthy (resolveReferenceId reference url) = true) :
    (handleNavigationStateChange reference verifier url).verifyCalls = 1 := by
  cases hv : verifier ((resolveReferenceId reference url).getD "") with
  | ok resp =>
    by_cases hs : resp.data.bind RespData.status = some "success"
    · rw [hnsc_ok_success h1 h2 hv hs]
    · rw [hnsc_ok_fail h1 h2 hv hs]
  | err m => rw [hnsc_err h1 h2 hv]

theorem hnsc_verifiedRef_eq {reference : Option String}
    {verifier : String → VerifyOutcome} {url : String}
    (h1 : isPaymentSuccessUrl url = true)
    (h2 : jsTruthy (resolveReferenceId reference url) = true) :
    (handleNavigationStateChange reference verifier url).verifiedRef =
      resolveReferenceId reference url := by
  cases hv : verifier ((resolveReferenceId reference url).getD "") with
  | ok resp =>
    by_cases hs : resp.data.bind RespData.status = some "success"
    · rw [hnsc_ok_success h1 h2 hv hs]
    · rw [hnsc_ok_fail h1 h2 hv hs]
  | err m => rw [hnsc_err h1 h2 hv]

theorem marketplace_pattern_is_success_pattern {url : String}
    (h : strIncl url "/api/marketplace/payments/callback/" = true) :
    isPaymentSuccessUrl url = true := by
  simp [isPaymentSuccessUrl, successPatterns, h]

/-! ## Claims -/

/-- C1, counterexample to the claim as stated: the legacy checkout screen's
`handleWebViewNavigation` (`src/src/screens/CheckoutScreen.tsx`, lines
118–127) navigates to the `OrderConfirmation` success view purely on URL
pattern-matching — its run performs zero payment-verifier round trips. -/
theorem c1_counterexample :
    handleWebViewNavigation
        "https://h.example/api/orders/payment/callback/?reference=ref123" =
      { action := .navigateOrderConfirmation "ref123", verifyCalls := 0 } := by
  decide

/-- C1 (amended): in the `part_009` checkout screen, every transition to
the success alert occurs only after the verifier round trip completed and
returned status `"success"`: whenever `handleNavigationStateChange`
produces `successAlert oid`, the verifier was invoked (exactly one call in
that run) on the resolved reference and resolved with a response whose
`data?.status` is `"success"` and whose `data?.order_id` is exactly
`oid`. -/
theorem c1_success_only_after_verifier (reference : Option String)
    (verifier : String → VerifyOutcome) (url : String) (oid : Option Nat)
    (h : (handleNavigationStateChange reference verifier url).outcome =
          .successAlert oid) :
    ∃ resp : VerifyResponse,
      verifier ((resolveReferenceId reference url).getD "") = .ok resp
      ∧ resp.data.bind RespData.status = some "success"
      ∧ resp.data.bind RespData.order_id = oid
      ∧ handleNavigationStateChange reference verifier url =
          { outcome := .successAlert oid, verifyCalls := 1
          , verifiedRef := resolveReferenceId reference url
          , hideWebView := true } := by
  cases h1 : isPaymentSuccessUrl url with
  | false =>
    rw [hnsc_no_match h1] at h
    simp at h
  | true =>
    cases h2 : jsTruthy (resolveReferenceId reference url) with
    | false =>
      rw [hnsc_no_ref h1 h2] at h
      simp at h
    | true =>
      cases hv : verifier ((resolveReferenceId reference url).getD "") with
      | ok resp =>
        by_cases hs : resp.data.bind RespData.status = some "success"
        · rw [hnsc_ok_success h1 h2 hv hs] at h
          simp only [NavOutcome.successAlert.injEq] at h
          exact ⟨resp, rfl, hs, h, by rw [hnsc_ok_success h1 h2 hv hs, h]⟩
        · rw [hnsc_ok_fail h1 h2 hv hs] at h
          simp at h
      | err m =>
        rw [hnsc_err h1 h2 hv] at h
        simp at h

/-- C1 witness: concrete run in which the success alert is reached and the
verifier round trip with status `"success"` is exhibited. -/
theorem c1_witness :
    ∃ resp : VerifyResponse,
      sampleSuccessVerifier
          ((resolveReferenceId (some "r1") sampleSuccessUrl).getD "") = .ok resp
      ∧ resp.data.bind RespData.status = some "success"
      ∧ resp.data.bind RespData.order_id = some 7
      ∧ handleNavigationStateChange (some "r1") sampleSuccessVerifier
            sampleSuccessUrl =
          { outcome := .successAlert (some 7), verifyCalls := 1
          , verifiedRef := resolveReferenceId (some "r1") sampleSuccessUrl
          , hideWebView := true } :=
  c1_success_only_after_verifier (some "r1") sampleSuccessVerifier
    sampleSuccessUrl (some 7) (by decide)

/-- C2, counterexample to the claim as stated: two consecutive navigation
events with the same success-matching URL trigger two `verifyPayment`
invocations, not one — the handler has no per-session single-flight
guard. -/
theorem c2_counterexample :
    processEvents (some "r1") sampleSuccessVerifier
        [sampleSuccessUrl, sampleSuccessUrl] = 2
    ∧ (handleNavigationStateChange (some "r1") sampleSuccessVerifier
        sampleSuccessUrl).verifyCalls = 1 := by
  decide

/-- C2 (amended): each delivered navigation event whose URL matches a
success pattern (and whose reference resolves) triggers its own
verification call: a run of `k` consecutive matching events performs
exactly `k` verifier invocations.  Suppression of later events relies only
on unmounting the browser surface, not on any guard in the handler. -/
theorem c2_verify_once_per_matching_event (reference : Option String)
    (verifier : String → VerifyOutcome) (url : String) (k : Nat)
    (h1 : isPaymentSuccessUrl url = true)
    (h2 : jsTruthy (resolveReferenceId reference url) = true) :
    processEvents reference verifier (List.replicate k url) = k := by
  simp [processEvents, List.map_replicate, hnsc_verifyCalls_one h1 h2,
    List.sum_replicate]

/-- C2 witness: three consecutive matching events yield three verifier
invocations. -/
theorem c2_witness :
    processEvents (some "r1") sampleSuccessVerifier
        (List.replicate 3 sampleSuccessUrl) = 3 :=
  c2_verify_once_per_matching_event (some "r1") sampleSuccessVerifier
    sampleSuccessUrl 3 (by decide) (by decide)

/-- C3, counterexample to the claim as stated: `httpsx://evil.example/pay`
is not an https URL (it does not even start with `https:`), yet the guard
accepts it and the screen presents the embedded browser on it — the guard
tests only the literal prefix `https`. -/
theorem c3_counterexample :
    strStarts "httpsx://evil.example/pay" "https:" = false
    ∧ render true (some "httpsx://evil.example/pay") true none =
        .webView "httpsx://evil.example/pay" := by
  decide

/-- C3 (amended): for every session whose authorization URL is missing or
does not start with the literal characters `https`, the screen (with fonts
loaded) renders the invalid-link outcome and never the embedded browser
surface, whatever the browser-related state — i.e. the rejection is
decided synchronously, before any browser step. -/
theorem c3_invalid_link_guard (authorizationUrl : Option String)
    (webViewVisible : Bool) (webViewError : Option String)
    (h : authorizationUrl = none
        ∨ strStarts (authorizationUrl.getD "") "https" = false) :
    render true authorizationUrl webViewVisible webViewError = .invalidLink
    ∧ ∀ u, render true authorizationUrl webViewVisible webViewError ≠
        .webView u := by
  have hinv : isInvalidPaymentLink authorizationUrl = true := by
    rcases h with h | h
    · rw [h]; rfl
    · cases authorizationUrl with
      | none => rfl
      | some s =>
        simp only [Option.getD_some] at h
        simp [isInvalidPaymentLink, h]
  refine ⟨by simp [render, hinv], ?_⟩
  intro u
  simp [render, hinv]

/-- C3 witness: the spec's own end-to-end example — a session initiated
with `http://insecure` reaches the invalid-link outcome without any
browser-presentation step. -/
theorem c3_witness :
    render true (some "http://insecure") true none = .invalidLink
    ∧ ∀ u, render true (some "http://insecure") true none ≠ .webView u :=
  c3_invalid_link_guard (some "http://insecure") true none (Or.inr (by decide))

/-- C4: a verification attempt that ends in a transport error surfaces the
generic fallback message `Payment verification failed` and is never
treated as successful.  `verifyPayment` itself is absent from the sources,
so the transport-error rejection is the spec-modelled
`transportErrorVerifier` (an error with no `message` text, matching §4.2
and the api-client house style); the `catch` of the handler then shows
`error.message || 'Payment verification failed'`, which is the generic
fallback. -/
theorem c4_transport_error_generic_message (reference : Option String)
    (url : String)
    (h1 : isPaymentSuccessUrl url = true)
    (h2 : jsTruthy (resolveReferenceId reference url) = true) :
    handleNavigationStateChange reference transportErrorVerifier url =
      { outcome := .errorAlert "Payment verification failed"
      , verifyCalls := 1
      , verifiedRef := resolveReferenceId reference url
      , hideWebView := true }
    ∧ ∀ oid,
        (handleNavigationStateChange reference transportErrorVerifier
          url).outcome ≠ .successAlert oid := by
  have he := @hnsc_err reference transportErrorVerifier url none h1 h2 rfl
  refine ⟨by rw [he]; rfl, ?_⟩
  intro oid
  rw [he]
  simp

/-- C4 witness: concrete transport-error run ending in the generic
fallback alert. -/
theorem c4_witness :
    handleNavigationStateChange (some "r1") transportErrorVerifier
        sampleSuccessUrl =
      { outcome := .errorAlert "Payment verification failed"
      , verifyCalls := 1
      , verifiedRef := resolveReferenceId (some "r1") sampleSuccessUrl
      , hideWebView := true }
    ∧ ∀ oid,
        (handleNavigationStateChange (some "r1") transportErrorVerifier
          sampleSuccessUrl).outcome ≠ .successAlert oid :=
  c4_transport_error_generic_message (some "r1") sampleSuccessUrl
    (by decide) (by decide)

/-- C5: the reference handed to the verifier is resolved with precedence
`reference` query parameter, then `transaction_id` query parameter, then
the session's originally-issued reference (so a URL carrying both
`reference=A` and `transaction_id=B` verifies `A`); and when no reference
resolves at all, the session reaches the error outcome with no verifier
call, never success. -/
theorem c5_reference_precedence (reference : Option String)
    (verifier : String → VerifyOutcome) (url : String) (a b : String)
    (h1 : isPaymentSuccessUrl url = true)
    (hp : urlParses url = true) :
    (spGet (searchParams url) "reference" = some a → a ≠ "" →
      (handleNavigationStateChange reference verifier url).verifiedRef =
        some a)
    ∧ (jsTruthy (spGet (searchParams url) "reference") = false →
        spGet (searchParams url) "transaction_id" = some b → b ≠ "" →
        (handleNavigationStateChange reference verifier url).verifiedRef =
          some b)
    ∧ (jsTruthy (spGet (searchParams url) "reference") = false →
        jsTruthy (spGet (searchParams url) "transaction_id") = false →
        jsTruthy reference = true →
        (handleNavigationStateChange reference verifier url).verifiedRef =
          reference)
    ∧ (jsTruthy (resolveReferenceId reference url) = false →
        handleNavigationStateChange reference verifier url =
          { outcome := .errorAlert "No reference found in callback URL"
          , verifyCalls := 0, verifiedRef := none, hideWebView := true }) := by
  refine ⟨?_, ?_, ?_, ?_⟩
  · intro hr ha
    have ta : jsTruthy (some a) = true := jsTruthy_some_of_ne ha
    have hR : resolveReferenceId reference url = some a := by
      rw [resolveReferenceId, extract_of_parses hp, hr, jsOr_of_truthy ta,
        jsOr_of_truthy ta, jsOr_of_truthy ta]
    rw [hnsc_verifiedRef_eq h1 (by rw [hR]; exact ta), hR]
  · intro hrf ht hb
    have tb : jsTruthy (some b) = true := jsTruthy_some_of_ne hb
    have hR : resolveReferenceId reference url = some b := by
      rw [resolveReferenceId, extract_of_parses hp, jsOr_of_falsy hrf, ht,
        jsOr_of_truthy tb, jsOr_of_truthy tb]
    rw [hnsc_verifiedRef_eq h1 (by rw [hR]; exact tb), hR]
  · intro hrf htf href
    have hR : resolveReferenceId reference url = reference := by
      rw [resolveReferenceId, extract_of_parses hp, jsOr_of_falsy hrf,
        jsOr_of_falsy htf, jsOr_of_truthy href]
    rw [hnsc_verifiedRef_eq h1 (by rw [hR]; exact href), hR]
  · intro h2f
    exact hnsc_no_ref h1 h2f

/-- C5 witness: on a matching redirect URL carrying both `reference=A` and
`transaction_id=B`, the reference passed to the verifier is `A`. -/
theorem c5_witness :
    (handleNavigationStateChange (some "sess") sampleSuccessVerifier
      "https://pay.example/payment/success?reference=A&transaction_id=B").verifiedRef
      = some "A" :=
  (c5_reference_precedence (some "sess") sampleSuccessVerifier
      "https://pay.example/payment/success?reference=A&transaction_id=B"
      "A" "B" (by decide) (by decide)).1 (by decide) (by decide)

/-- C6: when the verifier resolves with
`\x7b status: "success", order_id: n \x7d`, the handler reaches the success
alert carrying exactly `n` and nothing else, and the alert's order-view
action navigates to the order detail keyed by exactly that `n`. -/
theorem c6_success_response_transitions_to_order (reference : Option String)
    (url : String) (n : Nat) (e : Option String)
    (h1 : isPaymentSuccessUrl url = true)
    (h2 : jsTruthy (resolveReferenceId reference url) = true) :
    handleNavigationStateChange reference
        (fun _ => .ok ⟨some ⟨some "success", some n, e⟩⟩) url =
      { outcome := .successAlert (some n), verifyCalls := 1
      , verifiedRef := resolveReferenceId reference url, hideWebView := true }
    ∧ showSuccessAlertActions (some n) = [.home, .orderDetail (some n)] := by
  refine ⟨?_, rfl⟩
  rw [@hnsc_ok_success reference
    (fun _ => .ok ⟨some ⟨some "success", some n, e⟩⟩) url
    ⟨some ⟨some "success", some n, e⟩⟩ h1 h2 rfl rfl]
  rfl

/-- C6 witness: the spec's example `order_id: 42`. -/
theorem c6_witness :
    handleNavigationStateChange (some "r1")
        (fun _ => .ok ⟨some ⟨some "success", some 42, none⟩⟩)
        sampleSuccessUrl =
      { outcome := .successAlert (some 42), verifyCalls := 1
      , verifiedRef := resolveReferenceId (some "r1") sampleSuccessUrl
      , hideWebView := true }
    ∧ showSuccessAlertActions (some 42) = [.home, .orderDetail (some 42)] :=
  c6_success_response_transitions_to_order (some "r1") sampleSuccessUrl 42
    none (by decide) (by decide)

/-- C7: on a structured failure response the user-visible message is the
backend-provided error string verbatim when a non-empty one is present,
and the generic fallback `Payment failed. Please try again.` when none is
present. -/
theorem c7_structured_failure_message (reference : Option String)
    (url : String) (e : String) (oid : Option Nat)
    (h1 : isPaymentSuccessUrl url = true)
    (h2 : jsTruthy (resolveReferenceId reference url) = true) :
    (e ≠ "" →
      (handleNavigationStateChange reference
          (fun _ => .ok ⟨some ⟨some "failed", oid, some e⟩⟩) url).outcome =
        .errorAlert e)
    ∧ (handleNavigationStateChange reference
          (fun _ => .ok ⟨some ⟨some "failed", oid, none⟩⟩) url).outcome =
        .errorAlert "Payment failed. Please try again." := by
  constructor
  · intro he
    rw [@hnsc_ok_fail reference
      (fun _ => .ok ⟨some ⟨some "failed", oid, some e⟩⟩) url
      ⟨some ⟨some "failed", oid, some e⟩⟩ h1 h2 rfl (by simp)]
    simp [jsOrStr, he]
  · rw [@hnsc_ok_fail reference
      (fun _ => .ok ⟨some ⟨some "failed", oid, none⟩⟩) url
      ⟨some ⟨some "failed", oid, none⟩⟩ h1 h2 rfl (by simp)]
    rfl

/-- C7 witness: the spec's example — a `card_declined` failure is surfaced
verbatim, and an error-less failure body falls back to the generic
message. -/
theorem c7_witness :
    (handleNavigationStateChange (some "r1")
        (fun _ => .ok ⟨some ⟨some "failed", none, some "card_declined"⟩⟩)
        sampleSuccessUrl).outcome = .errorAlert "card_declined"
    ∧ (handleNavigationStateChange (some "r1")
        (fun _ => .ok ⟨some ⟨some "failed", none, none⟩⟩)
        sampleSuccessUrl).outcome =
      .errorAlert "Payment failed. Please try again." :=
  ⟨(c7_structured_failure_message (some "r1") sampleSuccessUrl
      "card_declined" none (by decide) (by decide)).1 (by decide),
   (c7_structured_failure_message (some "r1") sampleSuccessUrl
      "card_declined" none (by decide) (by decide)).2⟩

/-- C8, counterexample to the claim as stated: the load-error re-check is
narrower than the success classifier.  `https://checkout.paystack.co/success`
is callback-shaped under the check used for success classification
(`isPaymentSuccessUrl`), yet a load error on it does not proceed to
verification — it is surfaced as fatal with the browser's description,
even though a session reference was available. -/
theorem c8_counterexample :
    isPaymentSuccessUrl "https://checkout.paystack.co/success" = true
    ∧ handleWebViewError (some "r1") sampleSuccessVerifier
        "https://checkout.paystack.co/success"
        (some "net::ERR_CONNECTION_FAILED") =
      .fatal "net::ERR_CONNECTION_FAILED" := by
  decide

/-- C8 (amended): the load-error handler re-checks the failing URL against
only the backend callback-path substring `/api/marketplace/payments/callback/`
(one of the five success patterns, so such URLs are success-shaped too);
when it matches and a reference resolves, the event is delegated to the
navigation handler (verification proceeds rather than aborting), and every
load error whose URL lacks that substring is surfaced as fatal with the
browser's reported description (or the generic load-failure fallback). -/
theorem c8_load_error_recheck (reference : Option String)
    (verifier : String → VerifyOutcome) (url url2 : String)
    (d d2 : Option String) :
    (strIncl url "/api/marketplace/payments/callback/" = true →
      isPaymentSuccessUrl url = true
      ∧ (jsTruthy (extractReferenceFromUrl reference url) = true →
          handleWebViewError reference verifier url d =
            .delegated (handleNavigationStateChange reference verifier url)))
    ∧ (strIncl url2 "/api/marketplace/payments/callback/" = false →
        handleWebViewError reference verifier url2 d2 =
          .fatal (jsOrStr d2 "Failed to load payment page")) := by
  constructor
  · intro h
    refine ⟨marketplace_pattern_is_success_pattern h, ?_⟩
    intro ht
    simp [handleWebViewError, h, ht]
  · intro h
    simp [handleWebViewError, h]

/-- C8 witness: a load error on the backend callback path with a
resolvable reference is delegated to verification, while a load error on
an unrelated page is fatal with the reported description. -/
theorem c8_witness :
    handleWebViewError (some "r1") sampleSuccessVerifier
        "https://b.example/api/marketplace/payments/callback/?reference=z9"
        (some "net::ERR_FAILED") =
      .delegated (handleNavigationStateChange (some "r1")
        sampleSuccessVerifier
        "https://b.example/api/marketplace/payments/callback/?reference=z9")
    ∧ handleWebViewError (some "r1") sampleSuccessVerifier
        "https://plain.example/page" (some "boom") = .fatal "boom" :=
  ⟨((c8_load_error_recheck (some "r1") sampleSuccessVerifier
      "https://b.example/api/marketplace/payments/callback/?reference=z9"
      "https://plain.example/page" (some "net::ERR_FAILED")
      (some "boom")).1 (by decide)).2 (by decide),
   (c8_load_error_recheck (some "r1") sampleSuccessVerifier
      "https://b.example/api/marketplace/payments/callback/?reference=z9"
      "https://plain.example/page" (some "net::ERR_FAILED")
      (some "boom")).2 (by decide)⟩

/-- C9: reference extraction is total over arbitrary input strings.  When
the URL constructor rejects the string, the `catch` branch yields the
raw-split token `url.split('reference=')[1]?.split('&')[0]` or, failing
that, the session reference; and whenever a session reference exists, the
extraction always produces a truthy value — a malformed callback URL never
leaves the verification trigger without a result. -/
theorem c9_extract_total (reference : Option String) (url : String) :
    (urlParses url = false →
      extractReferenceFromUrl reference url =
        jsOr (rawSplitToken url) reference)
    ∧ (urlParses url = false → jsTruthy (rawSplitToken url) = false →
        extractReferenceFromUrl reference url = reference)
    ∧ (jsTruthy reference = true →
        jsTruthy (extractReferenceFromUrl reference url) = true) := by
  refine ⟨fun h => extract_of_not_parses h, fun h hf => ?_, fun ht => ?_⟩
  · rw [extract_of_not_parses h, jsOr_of_falsy hf]
  · by_cases hp : urlParses url = true
    · rw [extract_of_parses hp]
      exact jsTruthy_jsOr_right ht
    · rw [extract_of_not_parses (by simpa using hp)]
      exact jsTruthy_jsOr_right ht

/-- C9 witness: two malformed URLs, one with and one without a raw
`reference=` token — neither derails extraction. -/
theorem c9_witness :
    extractReferenceFromUrl (some "ref123") "::bad::reference=tok123&x=1" =
      jsOr (rawSplitToken "::bad::reference=tok123&x=1") (some "ref123")
    ∧ extractReferenceFromUrl (some "ref123") "::bad::" = some "ref123"
    ∧ jsTruthy (extractReferenceFromUrl (some "ref123")
        "::bad::reference=tok123&x=1") = true :=
  ⟨(c9_extract_total (some "ref123") "::bad::reference=tok123&x=1").1
      (by decide),
   (c9_extract_total (some "ref123") "::bad::").2.1 (by decide) (by decide),
   (c9_extract_total (some "ref123") "::bad::reference=tok123&x=1").2.2
      (by decide)⟩

/-- The invalid-link guard holds exactly when the authorization URL is
absent or lacks the literal prefix `https`. -/
theorem isInvalidPaymentLink_iff (authorizationUrl : Option String) :
    isInvalidPaymentLink authorizationUrl = true ↔
      (authorizationUrl = none
        ∨ strStarts (authorizationUrl.getD "") "https" = false) := by
  cases authorizationUrl with
  | none => simp [isInvalidPaymentLink]
  | some s =>
    simp only [isInvalidPaymentLink, Option.getD_some, Bool.or_eq_true,
      beq_iff_eq, Bool.not_eq_true', reduceCtorEq, false_or]
    constructor
    · rintro (rfl | hs)
      · decide
      · exact hs
    · exact Or.inr

/-- The screen (fonts loaded) renders the invalid-link surface exactly
when the guard holds. -/
theorem render_invalid_iff (authorizationUrl : Option String)
    (webViewVisible : Bool) (webViewError : Option String) :
    render true authorizationUrl webViewVisible webViewError = .invalidLink
      ↔ isInvalidPaymentLink authorizationUrl = true := by
  by_cases hinv : isInvalidPaymentLink authorizationUrl = true
  · simp [render, hinv]
  · have hf : isInvalidPaymentLink authorizationUrl = false := by
      simpa using hinv
    simp only [render, Bool.not_true, Bool.false_eq_true, if_false, hf]
    cases webViewVisible with
    | true => simp
    | false =>
      by_cases he : jsTruthy webViewError = true
      · simp [he]
      · simp [he]

/-- C10: the invalid-link guard tests only the literal string prefix
`https`: a session is rejected as an invalid payment link iff the
authorization URL is absent or does not start with the characters `https`,
and any string starting with `https` — whatever follows — is accepted and
handed to the embedded browser. -/
theorem c10_https_prefix_guard (authorizationUrl : Option String)
    (webViewVisible : Bool) (webViewError : Option String) :
    (render true authorizationUrl webViewVisible webViewError = .invalidLink
      ↔ (authorizationUrl = none
          ∨ strStarts (authorizationUrl.getD "") "https" = false))
    ∧ (∀ u, strStarts u "https" = true →
        render true (some u) true webViewError = .webView u) := by
  constructor
  · rw [render_invalid_iff]
    exact isInvalidPaymentLink_iff authorizationUrl
  · intro u hu
    have hne : u ≠ "" := by
      intro h0
      rw [h0] at hu
      exact absurd hu (by decide)
    have hf : isInvalidPaymentLink (some u) = false := by
      simp [isInvalidPaymentLink, hu, hne]
    simp [render, hf]

/-- C10 witness: an ordinary https URL and the non-URL scheme `httpsx`
are both accepted and handed to the browser. -/
theorem c10_witness :
    render true (some "https://pay.example/abc") true none =
      .webView "https://pay.example/abc"
    ∧ render true (some "httpsx://evil.example") true none =
      .webView "httpsx://evil.example" :=
  ⟨(c10_https_prefix_guard (some "https://pay.example/abc") true none).2
      "https://pay.example/abc" (by decide),
   (c10_https_prefix_guard (some "httpsx://evil.example") true none).2
      "httpsx://evil.example" (by decide)⟩

end Checkout
